import Mathlib

/-
  Verification development for the `file_date_util` tool.

  The repository contains two evolutionary variants of the same tool:
  * variant 0 (`src/unnamed/part_000`): classification (`FileStatsUtil.check`)
    compares the extracted metadata capture time (`meta_time`) against the
    filesystem timestamps, and `fix` applies `meta_time` when the file is
    flagged `fixable`, the directory constraint holds (`validDir`), and
    `meta_time` is present;
  * variant 1 (`src/unnamed/part_001`): classification compares the filesystem
    change time (`ctime`) against the other timestamps and carries separate
    `invalid` / `fixable` flags.

  The embedding below models:
  * JS `Date` parsing of the strings `"YYYY-MM-01T00:00:00+0900"` built by
    `rangeFromPath` (a proleptic-Gregorian epoch-millisecond computation with
    a fixed UTC+9 offset);
  * the two path patterns `monthMatcher = /\/(\d{4})\/(Movies-)?(\d{4})-(\d{2})/`
    and `yearMatcher = /\/(\d{4})\/(\d{4})-[^\d]/` with JavaScript `exec`
    semantics (leftmost match, greedy optional group);
  * the classifiers and the fixer of both variants, as pure functions over
    the values the real code obtains from I/O (filesystem stat timestamps and
    the raw EXIF/ffmpeg extraction result).

  Raw metadata extraction results are modelled as `Option (Option Int)`:
  `none` is "no date string found", `some none` is a JS `Date` holding `NaN`
  (an unparseable date string), and `some (some t)` is a valid instant `t`
  in epoch milliseconds.
-/

namespace FileDateUtil

/-- Day number (days since 1970-01-01) of the proleptic Gregorian date
`y-m-d`.  This models what JavaScript's `new Date` parser computes for the
calendar part of an ISO date string; the algorithm is the standard
civil-from-days era/year-of-era decomposition. -/
def daysFromCivil (y : Int) (m d : Nat) : Int :=
  let ys : Int := if m ≤ 2 then y - 1 else y
  let era : Int := ys / 400
  let yoe : Int := ys % 400
  let mp : Nat := (m + 9) % 12
  let doy : Nat := (153 * mp + 2) / 5 + (d - 1)
  yoe * 365 + yoe / 4 - yoe / 100 + (doy : Int) + era * 146097 - 719468

/-- Epoch milliseconds of `y-m-01T00:00:00+0900`, i.e. what
`new Date("YYYY-MM-01T00:00:00+0900")` yields for the strings built by
`rangeFromPath` (all of which have day 01 and time 00:00:00 at UTC+9). -/
def jstMs (y : Int) (m : Nat) : Int :=
  86400000 * daysFromCivil y m 1 - 32400000

/-- The character class `\d` of the path regexes: an ASCII decimal digit. -/
def isDig (c : Char) : Bool :=
  48 ≤ c.toNat && c.toNat ≤ 57

/-- Numeric value of a digit character (used to model `parseInt`). -/
def digitVal (c : Char) : Nat :=
  c.toNat - 48

/-- `parseInt(s, 10)` on a string of decimal digits. -/
def parseDigits (l : List Char) : Nat :=
  l.foldl (fun n c => 10 * n + digitVal c) 0

/-- Regex step: consume one expected literal character. -/
def expectChar (c : Char) : List Char → Option (List Char)
  | [] => none
  | x :: rest => if x = c then some rest else none

/-- Regex step: consume `\d{4}`, returning the four digit characters. -/
def expectDigit4 : List Char → Option (List Char × List Char)
  | c1 :: c2 :: c3 :: c4 :: rest =>
      if isDig c1 && isDig c2 && isDig c3 && isDig c4 then
        some ([c1, c2, c3, c4], rest)
      else none
  | _ => none

/-- Regex step: consume the literal infix `Movies-` (group 2 of the
variant-0 `monthMatcher`). -/
def stripMovies (l : List Char) : Option (List Char) :=
  match expectChar 'M' l with
  | none => none
  | some l1 =>
  match expectChar 'o' l1 with
  | none => none
  | some l2 =>
  match expectChar 'v' l2 with
  | none => none
  | some l3 =>
  match expectChar 'i' l3 with
  | none => none
  | some l4 =>
  match expectChar 'e' l4 with
  | none => none
  | some l5 =>
  match expectChar 's' l5 with
  | none => none
  | some l6 => expectChar '-' l6

/-- The `(\d{4})-(\d{2})` tail of the `monthMatcher`, after the optional
`Movies-` infix; `y1` is the already-captured first year group. -/
def monthTail (y1 : List Char) (l : List Char) : Option (List Char × List Char × List Char) :=
  match expectDigit4 l with
  | none => none
  | some (y2, l1) =>
    match expectChar '-' l1 with
    | none => none
    | some l2 =>
      match l2 with
      | m1 :: m2 :: _ => if isDig m1 && isDig m2 then some (y1, y2, [m1, m2]) else none
      | _ => none

/-- Attempt of `monthMatcher = /\/(\d{4})\/(Movies-)?(\d{4})-(\d{2})/` at the
start of `l`, returning the captures `(year group 1, year group 3, month
group 4)`.  The optional group is greedy: `Movies-` is consumed when present
and the match backtracks to the plain tail when the rest then fails, exactly
as the regex engine does. -/
def matchMonthAt (l : List Char) : Option (List Char × List Char × List Char) :=
  match expectChar '/' l with
  | none => none
  | some l1 =>
    match expectDigit4 l1 with
    | none => none
    | some (y1, l2) =>
      match expectChar '/' l2 with
      | none => none
      | some l3 =>
        match stripMovies l3 with
        | some l4 =>
          match monthTail y1 l4 with
          | some r => some r
          | none => monthTail y1 l3
        | none => monthTail y1 l3

/-- Attempt of `yearMatcher = /\/(\d{4})\/(\d{4})-[^\d]/` at the start of
`l`, returning the two year captures. -/
def matchYearAt (l : List Char) : Option (List Char × List Char) :=
  match expectChar '/' l with
  | none => none
  | some l1 =>
    match expectDigit4 l1 with
    | none => none
    | some (y1, l2) =>
      match expectChar '/' l2 with
      | none => none
      | some l3 =>
        match expectDigit4 l3 with
        | none => none
        | some (y2, l4) =>
          match expectChar '-' l4 with
          | none => none
          | some l5 =>
            match l5 with
            | x :: _ => if isDig x then none else some (y1, y2)
            | [] => none

/-- `monthMatcher.exec`: leftmost match of the month pattern. -/
def searchMonth : List Char → Option (List Char × List Char × List Char)
  | [] => none
  | c :: rest =>
    match matchMonthAt (c :: rest) with
    | some r => some r
    | none => searchMonth rest

/-- `yearMatcher.exec`: leftmost match of the year pattern. -/
def searchYear : List Char → Option (List Char × List Char)
  | [] => none
  | c :: rest =>
    match matchYearAt (c :: rest) with
    | some r => some r
    | none => searchYear rest

/-- `FileStatsUtil.rangeFromPath` of variant 0 (`src/unnamed/part_000`,
lines 87-128).  The month pattern is tried first; on a match with mismatched
year captures, or with year outside `(1950, 2030]` or month outside
`[1, 12]`, an error is logged and `null` is returned without ever trying the
year pattern.  On a year-pattern match a mismatch of the two year captures
is logged but the range is still returned, built from the first capture.
The `(year + 1) % 10000` models `` (`000${year + 1}`).substr(-4) ``: the
year of the range end is the last four decimal digits of `year + 1`. -/
def rangeFromPath (p : List Char) : Option (Int × Int) :=
  match searchMonth p with
  | some (y1, y2, mo) =>
    if y1 ≠ y2 then none
    else if parseDigits y1 ≤ 1950 ∨ 2030 < parseDigits y1
            ∨ parseDigits mo < 1 ∨ 12 < parseDigits mo then none
    else if parseDigits mo = 12 then
      some (jstMs (parseDigits y1 : Int) (parseDigits mo),
            jstMs (((parseDigits y1 + 1) % 10000 : Nat) : Int) 1)
    else
      some (jstMs (parseDigits y1 : Int) (parseDigits mo),
            jstMs (parseDigits y1 : Int) (parseDigits mo + 1))
  | none =>
    match searchYear p with
    | some (y1, _y2) =>
      some (jstMs ((parseDigits y1 : Nat) : Int) 1,
            jstMs (((parseDigits y1 + 1) % 10000 : Nat) : Int) 1)
    | none => none

/-- `rangeFromPath` on a path given as a string literal. -/
def rangeFromPathStr (s : String) : Option (Int × Int) :=
  rangeFromPath s.data

/-- `DELTA_MAX = 10 * 1000` milliseconds, the tolerance of both variants. -/
def DELTA_MAX : Nat := 10 * 1000

/-- The `FileFlag` type of variant 0: `"normal" | "no_meta" | "fixable"`. -/
inductive FileFlag
  | normal
  | no_meta
  | fixable
deriving DecidableEq

/-- The `FileStat` record of variant 0.  The source fields `begin` and `end`
are Lean keywords and are renamed `rangeBegin` / `rangeEnd`. -/
structure FileStat where
  rangeBegin : Option Int
  rangeEnd : Option Int
  meta_time : Option Int
  ctime : Int
  mtime : Int
  btime : Int
  flag : FileFlag
  validDir : Bool

/-- Normalization of the raw extraction result, variant 0 `check`
lines 210-215: a present `Date` whose time value is `0` or `NaN` is
collapsed to `undefined`. -/
def normMeta : Option (Option Int) → Option Int
  | none => none
  | some none => none
  | some (some t) => if t = 0 then none else some t

/-- `FileStatsUtil.check` of variant 0 (lines 184-249) as a pure function of
the values the source obtains from I/O: `range` is `rangeFromPath filePath`,
`rawMeta` the EXIF/ffmpeg extraction result, and `ctime`/`mtime`/`btime`
come from `fs.statSync`. -/
def check (range : Option (Int × Int)) (rawMeta : Option (Option Int))
    (ctime mtime btime : Int) (ignoreDir : Bool) : FileStat :=
  let meta_time := normMeta rawMeta
  let validDir : Bool := ignoreDir ||
    (match range, meta_time with
     | some (b, e), some t => decide (b ≤ t) && decide (t < e)
     | _, _ => false)
  match meta_time with
  | none =>
    { rangeBegin := range.map Prod.fst, rangeEnd := range.map Prod.snd
      meta_time := meta_time, ctime := ctime, mtime := mtime, btime := btime
      flag := FileFlag.no_meta, validDir := validDir }
  | some t =>
    let check0 : Bool := !ignoreDir &&
      (match range with
       | none => true
       | some (b, e) => decide (t < b) || decide (e ≤ t))
    let check3 : Bool := decide (DELTA_MAX < (t - ctime).natAbs)
    let check1 : Bool := decide (DELTA_MAX < (t - mtime).natAbs)
    let check2 : Bool := decide (DELTA_MAX < (t - btime).natAbs)
    { rangeBegin := range.map Prod.fst, rangeEnd := range.map Prod.snd
      meta_time := meta_time, ctime := ctime, mtime := mtime, btime := btime
      flag := if check0 || check1 || check2 || check3 then FileFlag.fixable else FileFlag.normal
      validDir := validDir }

/-- Result of `FileStatsUtil.fix` of variant 0: whether the fix was applied,
and the instant all of atime/mtime/btime were set to (`none` when the file
was left untouched). -/
structure FixResult where
  applied : Bool
  newTime : Option Int

/-- `FileStatsUtil.fix` of variant 0 (lines 284-305): re-runs `check` and
mutates the timestamps to `meta_time` unless the flag is not `fixable`, the
directory constraint fails, or `meta_time` is absent. -/
def fix (range : Option (Int × Int)) (rawMeta : Option (Option Int))
    (ctime mtime btime : Int) (ignoreDir : Bool) : FixResult :=
  let r := check range rawMeta ctime mtime btime ignoreDir
  if r.flag ≠ FileFlag.fixable ∨ r.validDir = false ∨ r.meta_time = none then
    { applied := false, newTime := none }
  else
    { applied := true, newTime := r.meta_time }

/-- The `FileStat` record of variant 1 (`src/unnamed/part_001`). -/
structure FileStatV1 where
  rangeBegin : Option Int
  rangeEnd : Option Int
  ex_ctime : Option Int
  ctime : Int
  mtime : Int
  btime : Int
  invalid : Bool
  fixable : Bool

/-- `FileStatsUtil.check` of variant 1 (`src/unnamed/part_001`,
lines 121-191) as a pure function: `ex_ctime` is the parsed EXIF
`CreateDate` (absent on error, missing field, or malformed layout) and
`noExif` records whether the reader reported "no Exif segment" or the
`CreateDate` field was missing. -/
def checkV1 (range : Option (Int × Int)) (ex_ctime : Option Int) (noExif : Bool)
    (ctime mtime btime : Int) (ignoreDir : Bool) : FileStatV1 :=
  let check0 : Bool := !ignoreDir &&
    (match range with
     | none => true
     | some (b, e) => decide (ctime < b) || decide (e ≤ ctime))
  let check1 : Bool := decide (DELTA_MAX < (ctime - mtime).natAbs)
  let check2 : Bool := decide (DELTA_MAX < (ctime - btime).natAbs)
  let fixable : Bool := ignoreDir ||
    (match range, ex_ctime with
     | some (b, e), some t => decide (b ≤ t) && decide (t < e)
     | _, _ => false)
  let invalid : Bool :=
    match ex_ctime with
    | some t => check0 || check1 || check2 || decide (DELTA_MAX < (ctime - t).natAbs)
    | none => check0 || check1 || check2 || noExif
  { rangeBegin := range.map Prod.fst, rangeEnd := range.map Prod.snd
    ex_ctime := ex_ctime, ctime := ctime, mtime := mtime, btime := btime
    invalid := invalid, fixable := fixable }

/-- The four checks exactly as the claim words them (spec section 4.3):
out-of-range on the capture time, then the three pair checks all comparing
the CHANGE time against the other timestamps.  This follows the spec's
words, to be compared with the condition `check` actually computes. -/
def specFourChecks (range : Option (Int × Int)) (captureTime ctime mtime btime : Int)
    (ignoreDir : Bool) : Bool :=
  (!ignoreDir &&
    (match range with
     | none => true
     | some (b, e) => decide (captureTime < b) || decide (e ≤ captureTime)))
  || decide (DELTA_MAX < (ctime - mtime).natAbs)
  || decide (DELTA_MAX < (ctime - btime).natAbs)
  || decide (DELTA_MAX < (ctime - captureTime).natAbs)

/-- The four checks as variant 0 actually computes them: the three pair
checks compare the CAPTURE time against each filesystem timestamp
(`check1 = |meta - mtime|`, `check2 = |meta - btime|`,
`check3 = |meta - ctime|`), in the source's disjunction order
`check0 || check1 || check2 || check3`. -/
def captureFourChecks (range : Option (Int × Int)) (captureTime ctime mtime btime : Int)
    (ignoreDir : Bool) : Bool :=
  (!ignoreDir &&
    (match range with
     | none => true
     | some (b, e) => decide (captureTime < b) || decide (e ≤ captureTime)))
  || decide (DELTA_MAX < (captureTime - mtime).natAbs)
  || decide (DELTA_MAX < (captureTime - btime).natAbs)
  || decide (DELTA_MAX < (captureTime - ctime).natAbs)

/-- The independent fixability flag as the claims word it:
`ignoreDirConstraint` OR (range present AND captureTime within
`[begin, end)`). -/
def specFixability (range : Option (Int × Int)) (captureTime : Option Int)
    (ignoreDir : Bool) : Bool :=
  ignoreDir ||
    (match range, captureTime with
     | some (b, e), some t => decide (b ≤ t) && decide (t < e)
     | _, _ => false)

/-! ### Calendar lemmas -/

/-- One Gregorian year is at least 365 days: stepping the era/year-of-era
decomposition of `daysFromCivil` by one year adds at least 365 days. -/
lemma civilYearStep (t : Int) :
    (t % 400) * 365 + (t % 400) / 4 - (t % 400) / 100 + (t / 400) * 146097 + 365
      ≤ ((t + 1) % 400) * 365 + ((t + 1) % 400) / 4 - ((t + 1) % 400) / 100
        + ((t + 1) / 400) * 146097 := by
  have h1 : t % 400 = 399 ∨ t % 400 ≤ 398 := by omega
  rcases h1 with h | h
  · have e1 : (t + 1) % 400 = 0 := by omega
    have e2 : (t + 1) / 400 = t / 400 + 1 := by omega
    rw [h, e1, e2]
    norm_num
    omega
  · have h0 : 0 ≤ t % 400 := by omega
    have e1 : (t + 1) % 400 = t % 400 + 1 := by omega
    have e2 : (t + 1) / 400 = t / 400 := by omega
    rw [e1, e2]
    generalize t % 400 = r at h0 h ⊢
    omega

/-- January 1 of year `y` is strictly before January 1 of year `y + 1`. -/
lemma jstMs_year_lt (y : Int) : jstMs y 1 < jstMs (y + 1) 1 := by
  have H := civilYearStep (y - 1)
  simp only [jstMs, daysFromCivil]
  norm_num
  omega

/-- Within one year, the first of month `m ∈ [1, 11]` is strictly before the
first of month `m + 1`. -/
lemma jstMs_month_lt (y : Int) (m : Nat) (h1 : 1 ≤ m) (h2 : m ≤ 11) :
    jstMs y m < jstMs y (m + 1) := by
  have H := civilYearStep (y - 1)
  interval_cases m <;> (simp only [jstMs, daysFromCivil]; norm_num; try omega)

/-- December 1 of year `y` is strictly before January 1 of year `y + 1`. -/
lemma jstMs_dec_lt (y : Int) : jstMs y 12 < jstMs (y + 1) 1 := by
  simp only [jstMs, daysFromCivil]
  norm_num

/-! ### Digit and parsing lemmas -/

/-- A digit character differs from any non-digit character. -/
lemma ne_of_isDig {x c : Char} (h : isDig x = true) (hc : isDig c = false) : x ≠ c := by
  intro e
  rw [e, hc] at h
  exact Bool.noConfusion h

/-- A digit character is not `'/'`. -/
lemma ne_slash_of_isDig {x : Char} (h : isDig x = true) : x ≠ '/' :=
  ne_of_isDig h (by decide)

/-- The numeric value of a digit character is at most 9. -/
lemma digitVal_le_9 {c : Char} (h : isDig c = true) : digitVal c ≤ 9 := by
  simp only [isDig, Bool.and_eq_true, decide_eq_true_eq] at h
  simp only [digitVal]
  omega

/-- `parseInt` of a four-digit string is below 10000. -/
lemma parseDigits4_lt {a b c d : Char}
    (hd : (isDig a && isDig b && isDig c && isDig d) = true) :
    parseDigits [a, b, c, d] < 10000 := by
  simp only [Bool.and_eq_true] at hd
  obtain ⟨⟨⟨ha, hb⟩, hc⟩, hd4⟩ := hd
  have va := digitVal_le_9 ha
  have vb := digitVal_le_9 hb
  have vc := digitVal_le_9 hc
  have vd := digitVal_le_9 hd4
  simp only [parseDigits, List.foldl]
  omega

/-! ### Regex scanner lemmas -/

/-- Inversion for `expectChar`. -/
lemma expectChar_eq_some {c : Char} {l r : List Char} :
    expectChar c l = some r ↔ l = c :: r := by
  cases l with
  | nil => simp [expectChar]
  | cons x rest =>
    simp only [expectChar]
    by_cases hx : x = c
    · subst hx
      simp
    · simp [hx]

/-- Inversion for `expectDigit4`. -/
lemma expectDigit4_eq_some {l ys r : List Char} :
    expectDigit4 l = some (ys, r) →
      ∃ c1 c2 c3 c4, l = c1 :: c2 :: c3 :: c4 :: r ∧ ys = [c1, c2, c3, c4] ∧
        (isDig c1 && isDig c2 && isDig c3 && isDig c4) = true := by
  match l with
  | [] => intro h; exact absurd h (by simp [expectDigit4])
  | [c1] => intro h; exact absurd h (by simp [expectDigit4])
  | [c1, c2] => intro h; exact absurd h (by simp [expectDigit4])
  | [c1, c2, c3] => intro h; exact absurd h (by simp [expectDigit4])
  | c1 :: c2 :: c3 :: c4 :: rest =>
    intro h
    simp only [expectDigit4] at h
    by_cases hdig : (isDig c1 && isDig c2 && isDig c3 && isDig c4) = true
    · rw [if_pos hdig] at h
      obtain ⟨hys, hr⟩ := Prod.mk.injEq .. ▸ Option.some.injEq .. ▸ h
      exact ⟨c1, c2, c3, c4, by rw [hr], hys.symm, hdig⟩
    · rw [if_neg hdig] at h
      exact absurd h (by simp)

/-- A month-pattern attempt fails on a list not starting with `'/'`. -/
lemma matchMonthAt_cons_of_ne {x : Char} (hx : x ≠ '/') (l : List Char) :
    matchMonthAt (x :: l) = none := by
  simp [matchMonthAt, expectChar, hx]

/-- A month-pattern attempt fails on a single-character list. -/
lemma matchMonthAt_single (x : Char) : matchMonthAt [x] = none := by
  by_cases hx : x = '/'
  · subst hx; decide
  · exact matchMonthAt_cons_of_ne hx []

/-- A year-pattern attempt fails on a list not starting with `'/'`. -/
lemma matchYearAt_cons_of_ne {x : Char} (hx : x ≠ '/') (l : List Char) :
    matchYearAt (x :: l) = none := by
  simp [matchYearAt, expectChar, hx]

/-- The leftmost month-pattern match skips a prefix containing no `'/'`. -/
lemma searchMonth_append {pre : List Char} (l : List Char) (h : '/' ∉ pre) :
    searchMonth (pre ++ l) = searchMonth l := by
  induction pre with
  | nil => rfl
  | cons x xs ih =>
    have hx : x ≠ '/' := fun e => h (by simp [e])
    have hxs : '/' ∉ xs := fun hm => h (List.mem_cons_of_mem _ hm)
    rw [List.cons_append]
    show (match matchMonthAt (x :: (xs ++ l)) with
          | some r => some r
          | none => searchMonth (xs ++ l)) = searchMonth l
    rw [matchMonthAt_cons_of_ne hx]
    exact ih hxs

/-- Evaluation of a month-pattern attempt on a segment
`/abcd/efgh-m1m2` made of digit characters. -/
lemma matchMonthAt_eval (a b c d e f g h m1 m2 : Char) (suf : List Char)
    (ha : isDig a = true) (hb : isDig b = true) (hc : isDig c = true)
    (hd : isDig d = true) (he : isDig e = true) (hf : isDig f = true)
    (hg : isDig g = true) (hh : isDig h = true)
    (hm1 : isDig m1 = true) (hm2 : isDig m2 = true) :
    matchMonthAt ('/' :: a :: b :: c :: d :: '/' :: e :: f :: g :: h :: '-' :: m1 :: m2 :: suf)
      = some ([a, b, c, d], [e, f, g, h], [m1, m2]) := by
  have hM : e ≠ 'M' := ne_of_isDig he (by decide)
  simp [matchMonthAt, expectChar, expectDigit4, stripMovies, monthTail,
        ha, hb, hc, hd, he, hf, hg, hh, hm1, hm2, hM]

/-- Evaluation of a year-pattern attempt on a segment `/abcd/efgh-x` with a
non-digit `x`. -/
lemma matchYearAt_eval (a b c d e f g h x : Char) (suf : List Char)
    (ha : isDig a = true) (hb : isDig b = true) (hc : isDig c = true)
    (hd : isDig d = true) (he : isDig e = true) (hf : isDig f = true)
    (hg : isDig g = true) (hh : isDig h = true)
    (hx : isDig x = false) :
    matchYearAt ('/' :: a :: b :: c :: d :: '/' :: e :: f :: g :: h :: '-' :: x :: suf)
      = some ([a, b, c, d], [e, f, g, h]) := by
  simp [matchYearAt, expectChar, expectDigit4,
        ha, hb, hc, hd, he, hf, hg, hh, hx]

/-- The month pattern matches nowhere in the year-convention path
`/abcd/efgh-x`. -/
lemma searchMonth_yearPath (a b c d e f g h x : Char)
    (ha : isDig a = true) (hb : isDig b = true) (hc : isDig c = true)
    (hd : isDig d = true) (he : isDig e = true) (hf : isDig f = true)
    (hg : isDig g = true) (hh : isDig h = true) :
    searchMonth ('/' :: a :: b :: c :: d :: '/' :: e :: f :: g :: h :: '-' :: [x]) = none := by
  have hM : e ≠ 'M' := ne_of_isDig he (by decide)
  have h0 : matchMonthAt ('/' :: a :: b :: c :: d :: '/' :: e :: f :: g :: h :: '-' :: [x]) = none := by
    simp [matchMonthAt, expectChar, expectDigit4, stripMovies, monthTail,
          ha, hb, hc, hd, he, hf, hg, hh, hM]
  have h5 : matchMonthAt ('/' :: e :: f :: g :: h :: '-' :: [x]) = none := by
    simp [matchMonthAt, expectChar, expectDigit4, he, hf, hg, hh]
  simp [searchMonth, h0, h5,
        matchMonthAt_cons_of_ne (ne_slash_of_isDig ha),
        matchMonthAt_cons_of_ne (ne_slash_of_isDig hb),
        matchMonthAt_cons_of_ne (ne_slash_of_isDig hc),
        matchMonthAt_cons_of_ne (ne_slash_of_isDig hd),
        matchMonthAt_cons_of_ne (ne_slash_of_isDig he),
        matchMonthAt_cons_of_ne (ne_slash_of_isDig hf),
        matchMonthAt_cons_of_ne (ne_slash_of_isDig hg),
        matchMonthAt_cons_of_ne (ne_slash_of_isDig hh),
        matchMonthAt_cons_of_ne (show ('-' : Char) ≠ '/' by decide),
        matchMonthAt_single]

/-- Full evaluation of `rangeFromPath` on a year-convention path
`/abcd/efgh-x`: the month pattern fails everywhere, the year pattern
matches, and the range is built from the first year capture regardless of
whether the two captures agree. -/
lemma rangeFromPath_yearPath (a b c d e f g h x : Char)
    (ha : isDig a = true) (hb : isDig b = true) (hc : isDig c = true)
    (hd : isDig d = true) (he : isDig e = true) (hf : isDig f = true)
    (hg : isDig g = true) (hh : isDig h = true)
    (hx : isDig x = false) :
    rangeFromPath ('/' :: a :: b :: c :: d :: '/' :: e :: f :: g :: h :: '-' :: [x])
      = some (jstMs ((parseDigits [a, b, c, d] : Nat) : Int) 1,
              jstMs (((parseDigits [a, b, c, d] + 1) % 10000 : Nat) : Int) 1) := by
  have hm := searchMonth_yearPath a b c d e f g h x ha hb hc hd he hf hg hh
  have hy : searchYear ('/' :: a :: b :: c :: d :: '/' :: e :: f :: g :: h :: '-' :: [x])
      = some ([a, b, c, d], [e, f, g, h]) := by
    have := matchYearAt_eval a b c d e f g h x [] ha hb hc hd he hf hg hh hx
    simp [searchYear, this]
  simp [rangeFromPath, hm, hy]

/-- Inversion for `matchYearAt`: the first capture consists of four digit
characters. -/
lemma matchYearAt_digits {l : List Char} {y1 y2 : List Char}
    (h : matchYearAt l = some (y1, y2)) :
    ∃ c1 c2 c3 c4, y1 = [c1, c2, c3, c4] ∧
      (isDig c1 && isDig c2 && isDig c3 && isDig c4) = true := by
  unfold matchYearAt at h
  split at h
  · exact absurd h (by simp)
  next l1 h1 =>
  split at h
  · exact absurd h (by simp)
  next y1' l2 h2 =>
  split at h
  · exact absurd h (by simp)
  next l3 h3 =>
  split at h
  · exact absurd h (by simp)
  next y2' l4 h4 =>
  split at h
  · exact absurd h (by simp)
  next l5 h5 =>
  split at h
  · split at h
    · exact absurd h (by simp)
    · simp only [Option.some.injEq, Prod.mk.injEq] at h
      obtain ⟨hy1, _⟩ := h
      obtain ⟨c1, c2, c3, c4, _, hys, hdig⟩ := expectDigit4_eq_some h2
      exact ⟨c1, c2, c3, c4, by rw [← hy1, hys], hdig⟩
  · exact absurd h (by simp)

/-- Inversion for `searchYear`: the first capture of the leftmost
year-pattern match consists of four digit characters. -/
lemma searchYear_digits {p : List Char} {y1 y2 : List Char}
    (h : searchYear p = some (y1, y2)) :
    ∃ c1 c2 c3 c4, y1 = [c1, c2, c3, c4] ∧
      (isDig c1 && isDig c2 && isDig c3 && isDig c4) = true := by
  induction p with
  | nil => exact absurd h (by simp [searchYear])
  | cons x rest ih =>
    rw [show searchYear (x :: rest)
        = (match matchYearAt (x :: rest) with
           | some r => some r
           | none => searchYear rest) from rfl] at h
    cases hm : matchYearAt (x :: rest) with
    | some r =>
      rw [hm] at h
      obtain ⟨a1, a2⟩ := r
      simp only [Option.some.injEq] at h
      exact matchYearAt_digits (h ▸ hm)
    | none =>
      rw [hm] at h
      exact ih h

/-! ### Classifier lemmas -/

/-- The classifier's `meta_time` field is the normalized extraction result. -/
lemma check_meta_time (range : Option (Int × Int)) (rawMeta : Option (Option Int))
    (ctime mtime btime : Int) (ignoreDir : Bool) :
    (check range rawMeta ctime mtime btime ignoreDir).meta_time = normMeta rawMeta := by
  cases h : normMeta rawMeta <;> simp [check, h]

/-- The classifier's `validDir` field coincides with the fixability flag as
the spec words it. -/
lemma check_validDir (range : Option (Int × Int)) (rawMeta : Option (Option Int))
    (ctime mtime btime : Int) (ignoreDir : Bool) :
    (check range rawMeta ctime mtime btime ignoreDir).validDir
      = specFixability range (normMeta rawMeta) ignoreDir := by
  cases h : normMeta rawMeta <;> simp [check, specFixability, h]

/-- With no usable metadata the flag is `no_meta`. -/
lemma check_flag_none {range : Option (Int × Int)} {rawMeta : Option (Option Int)}
    {ctime mtime btime : Int} {ignoreDir : Bool}
    (h : normMeta rawMeta = none) :
    (check range rawMeta ctime mtime btime ignoreDir).flag = FileFlag.no_meta := by
  simp [check, h]

/-- With usable metadata the flag is determined by the four capture-based
checks. -/
lemma check_flag_some {range : Option (Int × Int)} {rawMeta : Option (Option Int)}
    {ctime mtime btime : Int} {ignoreDir : Bool} {t : Int}
    (h : normMeta rawMeta = some t) :
    (check range rawMeta ctime mtime btime ignoreDir).flag
      = if captureFourChecks range t ctime mtime btime ignoreDir then FileFlag.fixable
        else FileFlag.normal := by
  simp [check, h, captureFourChecks]

/-- `fix` applies exactly when the flag is `fixable`, the directory
constraint holds, and metadata is present. -/
lemma fix_applied_iff (range : Option (Int × Int)) (rawMeta : Option (Option Int))
    (ctime mtime btime : Int) (ignoreDir : Bool) :
    (fix range rawMeta ctime mtime btime ignoreDir).applied = true
      ↔ ((check range rawMeta ctime mtime btime ignoreDir).flag = FileFlag.fixable
          ∧ (check range rawMeta ctime mtime btime ignoreDir).validDir = true
          ∧ (check range rawMeta ctime mtime btime ignoreDir).meta_time ≠ none) := by
  simp only [fix]
  split
  next hcond =>
    constructor
    · intro hfalse
      exact absurd hfalse (by simp)
    · rintro ⟨ha, hb, hc⟩
      rcases hcond with h | h | h
      · exact absurd ha h
      · rw [hb] at h
        exact Bool.noConfusion h
      · exact absurd h hc
  next hcond =>
    push_neg at hcond
    obtain ⟨ha, hb, hc⟩ := hcond
    simp only [Bool.not_eq_false] at hb
    simp [ha, hb, hc]

/-! ### Claim theorems -/

/-- C1 (counterexample): at capture time 100000 with change/modify/creation
times 106000/112000/106000 and the range check disabled, the code flags the
file `fixable` (because `|captureTime - modifyTime| = 12000 > 10000`) while
the claim's four checks — which compare the CHANGE time against the other
timestamps — are all false, so the claim's "fixable iff one of the four
checks" is false at this input. -/
theorem C1_cx :
    (check none (some (some 100000)) 106000 112000 106000 true).flag = FileFlag.fixable ∧
    (check none (some (some 100000)) 106000 112000 106000 true).meta_time = some 100000 ∧
    specFourChecks none 100000 106000 112000 106000 true = false :=
  ⟨by decide, by decide, by decide⟩

/-- C1 (amended): for every input where captureTime is present, `check`
returns flag `fixable` iff at least one of the four checks holds — the
out-of-range check on captureTime, or a pair check comparing CAPTURE time
against modify, creation, or change time beyond `DELTA_MAX` — and returns
`normal` (consistent) otherwise. -/
theorem C1_theorem (range : Option (Int × Int)) (rawMeta : Option (Option Int))
    (ctime mtime btime : Int) (ignoreDir : Bool) (t : Int)
    (h : (check range rawMeta ctime mtime btime ignoreDir).meta_time = some t) :
    ((check range rawMeta ctime mtime btime ignoreDir).flag = FileFlag.fixable
        ↔ captureFourChecks range t ctime mtime btime ignoreDir = true) ∧
    ((check range rawMeta ctime mtime btime ignoreDir).flag = FileFlag.normal
        ↔ captureFourChecks range t ctime mtime btime ignoreDir = false) := by
  rw [check_meta_time] at h
  rw [check_flag_some h]
  cases hc : captureFourChecks range t ctime mtime btime ignoreDir <;> simp [hc]

/-- C1 (witness): the amended theorem instantiated at a concrete input with
captureTime present. -/
theorem C1_witness :
    (check none (some (some 100000)) 0 0 0 true).meta_time = some 100000 ∧
    (((check none (some (some 100000)) 0 0 0 true).flag = FileFlag.fixable
        ↔ captureFourChecks none 100000 0 0 0 true = true) ∧
     ((check none (some (some 100000)) 0 0 0 true).flag = FileFlag.normal
        ↔ captureFourChecks none 100000 0 0 0 true = false)) :=
  ⟨by decide, C1_theorem none (some (some 100000)) 0 0 0 true 100000 (by decide)⟩

/-- C2: `fix` mutates the file's timestamps iff the verdict is `fixable`
AND the independent fixability flag (ignoreDirConstraint OR captureTime
within the range) is true AND captureTime is present; when any precondition
fails it reports not-applied and performs no mutation. -/
theorem C2_theorem (range : Option (Int × Int)) (rawMeta : Option (Option Int))
    (ctime mtime btime : Int) (ignoreDir : Bool) :
    ((fix range rawMeta ctime mtime btime ignoreDir).applied = true
       ↔ ((check range rawMeta ctime mtime btime ignoreDir).flag = FileFlag.fixable
           ∧ specFixability range (check range rawMeta ctime mtime btime ignoreDir).meta_time
               ignoreDir = true
           ∧ (check range rawMeta ctime mtime btime ignoreDir).meta_time ≠ none)) ∧
    ((fix range rawMeta ctime mtime btime ignoreDir).applied = false
       → (fix range rawMeta ctime mtime btime ignoreDir).newTime = none) ∧
    ((fix range rawMeta ctime mtime btime ignoreDir).applied = true
       → (fix range rawMeta ctime mtime btime ignoreDir).newTime
           = (check range rawMeta ctime mtime btime ignoreDir).meta_time) := by
  refine ⟨?_, ?_, ?_⟩
  · rw [fix_applied_iff, check_meta_time, check_validDir]
  · simp only [fix]
    split
    · intro _
      rfl
    · intro hfalse
      exact absurd hfalse (by simp)
  · simp only [fix]
    split
    · intro hfalse
      exact absurd hfalse (by simp)
    · intro _
      rfl

/-- C5: with captureTime absent the verdict is `no_meta` (missingMetadata)
regardless of the timestamps and range, and the fixability flag equals
`ignoreDir` (false unless the directory constraint is ignored). -/
theorem C5_theorem (range : Option (Int × Int)) (rawMeta : Option (Option Int))
    (ctime mtime btime : Int) (ignoreDir : Bool)
    (h : normMeta rawMeta = none) :
    (check range rawMeta ctime mtime btime ignoreDir).flag = FileFlag.no_meta ∧
    (check range rawMeta ctime mtime btime ignoreDir).validDir = ignoreDir := by
  refine ⟨check_flag_none h, ?_⟩
  rw [check_validDir, h]
  rcases range with _ | ⟨b, e⟩ <;> simp [specFixability]

/-- C5 (witness): the theorem instantiated with no raw metadata, a present
range, and `ignoreDir = false`. -/
theorem C5_witness :
    normMeta none = none ∧
    ((check (some (0, 100)) none 1 2 3 false).flag = FileFlag.no_meta ∧
     (check (some (0, 100)) none 1 2 3 false).validDir = false) :=
  ⟨rfl, C5_theorem (some (0, 100)) none 1 2 3 false rfl⟩

/-- C6 (counterexample): fix mode is not idempotent.  At capture time
1000000 with change time 2000000 (more than 10 s away), the first run
applies a correction (setting modify and birth times to 1000000; the change
time is not among the attributes the timestamp write sets), and the second
run on the resulting timestamps applies a correction again, because the
change-time pair check `|captureTime - ctime| > DELTA_MAX` still fires. -/
theorem C6_cx :
    (fix none (some (some 1000000)) 2000000 5000000 5000000 true).applied = true ∧
    (fix none (some (some 1000000)) 2000000 1000000 1000000 true).applied = true :=
  ⟨by decide, by decide⟩

/-- C6 (amended): after a first `fix` run applies a correction (modify and
birth times become captureTime `t`; the change time after the write is
platform-determined, modelled by the parameter `ctimeAfter`), a second run
applies a correction iff the change time still differs from captureTime by
more than `DELTA_MAX`; the second run performs no mutation iff the change
time ended up within tolerance of captureTime. -/
theorem C6_theorem (range : Option (Int × Int)) (rawMeta : Option (Option Int))
    (ctime mtime btime : Int) (ignoreDir : Bool) (t ctimeAfter : Int)
    (h1 : (fix range rawMeta ctime mtime btime ignoreDir).applied = true)
    (h2 : normMeta rawMeta = some t) :
    (fix range rawMeta ctimeAfter t t ignoreDir).applied = true
      ↔ DELTA_MAX < (t - ctimeAfter).natAbs := by
  rw [fix_applied_iff, check_validDir] at h1
  obtain ⟨_, hvd, _⟩ := h1
  rw [h2] at hvd
  rw [fix_applied_iff, check_validDir, check_meta_time, h2, check_flag_some h2]
  have hc : captureFourChecks range t ctimeAfter t t ignoreDir
      = decide (DELTA_MAX < (t - ctimeAfter).natAbs) := by
    unfold captureFourChecks
    have hz : decide (DELTA_MAX < (t - t).natAbs) = false := by
      simp [DELTA_MAX]
    rw [hz]
    cases hig : ignoreDir with
    | true => simp
    | false =>
      rw [hig] at hvd
      simp only [specFixability, Bool.false_or] at hvd
      rcases range with _ | ⟨b, e⟩
      · exact absurd hvd (by simp)
      · simp only [Bool.and_eq_true, decide_eq_true_eq] at hvd
        obtain ⟨hb, he⟩ := hvd
        have h0 : (decide (t < b) || decide (e ≤ t)) = false := by
          simp only [Bool.or_eq_false_iff, decide_eq_false_iff_not]
          omega
        simp [h0]
  rw [hc, hvd]
  cases hd : decide (DELTA_MAX < (t - ctimeAfter).natAbs) <;>
    simp_all [decide_eq_true_eq, decide_eq_false_iff_not]

/-- C6 (witness): the amended theorem instantiated at the counterexample
input with the change time left unchanged by the write. -/
theorem C6_witness :
    (fix none (some (some 1000000)) 2000000 5000000 5000000 true).applied = true ∧
    normMeta (some (some 1000000)) = some 1000000 ∧
    ((fix none (some (some 1000000)) 2000000 1000000 1000000 true).applied = true
      ↔ DELTA_MAX < ((1000000 : Int) - 2000000).natAbs) :=
  ⟨by decide, by decide,
    C6_theorem none (some (some 1000000)) 2000000 5000000 5000000 true 1000000 2000000
      (by decide) (by decide)⟩

/-- C8: a successfully parsed capture instant equal to the zero epoch, or an
invalid (NaN) instant, is collapsed to absent before classification, so the
classifier treats the file as missing metadata and never sees such a value
as a present captureTime. -/
theorem C8_theorem (range : Option (Int × Int)) (rawMeta : Option (Option Int))
    (ctime mtime btime : Int) (ignoreDir : Bool)
    (h : rawMeta = some (some 0) ∨ rawMeta = some none) :
    (check range rawMeta ctime mtime btime ignoreDir).meta_time = none ∧
    (check range rawMeta ctime mtime btime ignoreDir).flag = FileFlag.no_meta := by
  have hn : normMeta rawMeta = none := by
    rcases h with h | h <;> subst h <;> simp [normMeta]
  exact ⟨by rw [check_meta_time, hn], check_flag_none hn⟩

/-- C8 (witness): the theorem instantiated at a parsed zero-epoch instant. -/
theorem C8_witness :
    ((some (some 0) : Option (Option Int)) = some (some 0)
      ∨ (some (some 0) : Option (Option Int)) = some none) ∧
    ((check none (some (some 0)) 5 6 7 false).meta_time = none ∧
     (check none (some (some 0)) 5 6 7 false).flag = FileFlag.no_meta) :=
  ⟨Or.inl rfl, C8_theorem none (some (some 0)) 5 6 7 false (Or.inl rfl)⟩

/-- C9: the two classifier variants are not equivalent: there is an input
with `ignoreDir = false`, a present range, and a present capture time —
change time outside the archive range but capture time inside it — on which
variant 1 (out-of-range check on the change time) reports `invalid` while
variant 0 (out-of-range check on the capture time) classifies the file as
consistent (not `fixable`). -/
theorem C9_theorem :
    ∃ (b e ex ct mt bt : Int),
      (b ≤ ex ∧ ex < e) ∧ (ct < b ∨ e ≤ ct) ∧
      (checkV1 (some (b, e)) (some ex) false ct mt bt false).invalid = true ∧
      (check (some (b, e)) (some (some ex)) ct mt bt false).flag ≠ FileFlag.fixable := by
  refine ⟨0, 1000000, 995000, 1000001, 1000001, 1000001, ?_, ?_, ?_, ?_⟩ <;> decide

/-- C3 (counterexample): the path `/2020/2019-05/2023/2023-07` contains the
segment `/2023/2023-07` with equal years, year in `(1950, 2030]` and month
in `[1, 12]`, yet `resolve` returns no range: the month pattern's leftmost
match is the earlier mismatched segment `/2020/2019-05`, which aborts range
resolution for the whole path. -/
theorem C3_cx :
    rangeFromPathStr "/2020/2019-05/2023/2023-07" = none ∧
    rangeFromPathStr "/2020/2019-05/2023/2023-07" ≠ some (jstMs 2023 7, jstMs 2023 8) :=
  ⟨by decide, by decide⟩

/-- C3 (amended): for every path whose leftmost month-pattern match has
equal year captures, year in `(1950, 2030]` and month in `[1, 12]`,
`resolve` returns the range from the first of `YYYY-MM` at UTC+9 to the
first of the following month, or to January 1 of `YYYY+1` when the month
is 12.  (A month-pattern match further left in the path preempts the
segment, which is what the counterexample exploits.) -/
theorem C3_theorem (p : List Char) (y1 mo : List Char)
    (hsm : searchMonth p = some (y1, y1, mo))
    (hy : 1950 < parseDigits y1 ∧ parseDigits y1 ≤ 2030)
    (hmo : 1 ≤ parseDigits mo ∧ parseDigits mo ≤ 12) :
    rangeFromPath p
      = some (jstMs (parseDigits y1 : Int) (parseDigits mo),
              if parseDigits mo = 12
              then jstMs ((parseDigits y1 : Int) + 1) 1
              else jstMs (parseDigits y1 : Int) (parseDigits mo + 1)) := by
  simp only [rangeFromPath, hsm]
  rw [if_neg (by simp)]
  rw [if_neg (by omega)]
  by_cases h12 : parseDigits mo = 12
  · rw [if_pos h12, if_pos h12]
    have hmod : (parseDigits y1 + 1) % 10000 = parseDigits y1 + 1 :=
      Nat.mod_eq_of_lt (by omega)
    rw [hmod]
    push_cast
    rfl
  · rw [if_neg h12, if_neg h12]

/-- C3 (witness): the amended theorem at `/archive/2023/2023-07/IMG.jpg`,
whose leftmost month-pattern match is the segment `/2023/2023-07`; the path
resolves to `[2023-07-01T00:00:00+09:00, 2023-08-01T00:00:00+09:00)`. -/
theorem C3_witness :
    searchMonth ("/archive/2023/2023-07/IMG.jpg".data)
      = some (['2', '0', '2', '3'], ['2', '0', '2', '3'], ['0', '7']) ∧
    (1950 < parseDigits ['2', '0', '2', '3'] ∧ parseDigits ['2', '0', '2', '3'] ≤ 2030) ∧
    (1 ≤ parseDigits ['0', '7'] ∧ parseDigits ['0', '7'] ≤ 12) ∧
    rangeFromPathStr "/archive/2023/2023-07/IMG.jpg" = some (1688137200000, 1690815600000) := by
  refine ⟨by decide, by decide, by decide, ?_⟩
  have h := C3_theorem ("/archive/2023/2023-07/IMG.jpg".data) ['2', '0', '2', '3'] ['0', '7']
    (by decide) (by decide) (by decide)
  rw [show rangeFromPathStr "/archive/2023/2023-07/IMG.jpg"
      = rangeFromPath ("/archive/2023/2023-07/IMG.jpg".data) from rfl, h]
  decide

/-- C4 (counterexample): on the year-convention path `/2023/2022-x` the two
year captures differ, yet `resolve` logs the mismatch and still returns the
range `[2023-01-01, 2024-01-01)` built from the directory year, instead of
returning no range as the claim states. -/
theorem C4_cx :
    rangeFromPathStr "/2023/2022-x" = some (jstMs 2023 1, jstMs 2024 1) ∧
    rangeFromPathStr "/2023/2022-x" ≠ none :=
  ⟨by decide, by decide⟩

/-- C4 (amended): for every path whose leftmost month-pattern match has
differing year captures, `resolve` returns no range; but for every path on
which the month pattern matches nowhere and the leftmost year-pattern
match has differing year captures, `resolve` logs an error and still
returns the year range `[Jan 1 Y1, Jan 1 of the last four digits of Y1+1)`
built from the first (directory) year capture. -/
theorem C4_theorem (p q : List Char) (y1 y2 mo z1 z2 : List Char)
    (hm : searchMonth p = some (y1, y2, mo)) (hne : y1 ≠ y2)
    (hq : searchMonth q = none) (hz : searchYear q = some (z1, z2))
    (_hzne : z1 ≠ z2) :
    rangeFromPath p = none ∧
    rangeFromPath q
      = some (jstMs ((parseDigits z1 : Nat) : Int) 1,
              jstMs (((parseDigits z1 + 1) % 10000 : Nat) : Int) 1) := by
  constructor
  · simp [rangeFromPath, hm, hne]
  · simp [rangeFromPath, hq, hz]

/-- C4 (witness): the amended theorem at the month-convention path
`/2023/2022-07/IMG.jpg` (mismatched years, no range) and the
year-convention path `/1999/1998-misc/a.jpg` (mismatched years, range
still built from the directory year 1999). -/
theorem C4_witness :
    searchMonth ("/2023/2022-07/IMG.jpg".data)
      = some (['2', '0', '2', '3'], ['2', '0', '2', '2'], ['0', '7']) ∧
    ['2', '0', '2', '3'] ≠ ['2', '0', '2', '2'] ∧
    searchMonth ("/1999/1998-misc/a.jpg".data) = none ∧
    searchYear ("/1999/1998-misc/a.jpg".data)
      = some (['1', '9', '9', '9'], ['1', '9', '9', '8']) ∧
    ['1', '9', '9', '9'] ≠ ['1', '9', '9', '8'] ∧
    (rangeFromPathStr "/2023/2022-07/IMG.jpg" = none ∧
     rangeFromPathStr "/1999/1998-misc/a.jpg"
       = some (jstMs ((parseDigits ['1', '9', '9', '9'] : Nat) : Int) 1,
               jstMs (((parseDigits ['1', '9', '9', '9'] + 1) % 10000 : Nat) : Int) 1)) :=
  ⟨by decide, by decide, by decide, by decide, by decide,
    C4_theorem ("/2023/2022-07/IMG.jpg".data) ("/1999/1998-misc/a.jpg".data)
      ['2', '0', '2', '3'] ['2', '0', '2', '2'] ['0', '7']
      ['1', '9', '9', '9'] ['1', '9', '9', '8']
      (by decide) (by decide) (by decide) (by decide) (by decide)⟩

/-- C7 (counterexample): on the year-convention path `/9999/9999-a` the
code returns the range `[Jan 1 9999, Jan 1 0000)` — the end-year string
`('000' + 10000).substr(-4)` wraps to `"0000"` — so `begin < end` fails. -/
theorem C7_cx :
    rangeFromPathStr "/9999/9999-a" = some (jstMs 9999 1, jstMs 0 1) ∧
    ¬ jstMs 9999 1 < jstMs 0 1 :=
  ⟨by decide, by decide⟩

/-- C7 (amended): whenever `resolve` returns a range, `begin < end` holds,
except in the single wrap-around case where the year-convention year is
9999 and the range is `[Jan 1 9999, Jan 1 0000)`. -/
theorem C7_theorem (p : List Char) (bg en : Int)
    (h : rangeFromPath p = some (bg, en)) :
    bg < en ∨ (bg = jstMs 9999 1 ∧ en = jstMs 0 1) := by
  unfold rangeFromPath at h
  split at h
  next y1 y2 mo hsm =>
    split at h
    · exact absurd h (by simp)
    next hne =>
      split at h
      · exact absurd h (by simp)
      next hguard =>
        push_neg at hguard
        obtain ⟨hy1, hy2, hm1, hm2⟩ := hguard
        split at h
        next h12 =>
          simp only [Option.some.injEq, Prod.mk.injEq] at h
          obtain ⟨hbg, hen⟩ := h
          left
          rw [← hbg, ← hen, h12]
          have hmod : (parseDigits y1 + 1) % 10000 = parseDigits y1 + 1 :=
            Nat.mod_eq_of_lt (by omega)
          rw [hmod]
          push_cast
          exact jstMs_dec_lt (parseDigits y1 : Int)
        next h12 =>
          simp only [Option.some.injEq, Prod.mk.injEq] at h
          obtain ⟨hbg, hen⟩ := h
          left
          rw [← hbg, ← hen]
          exact jstMs_month_lt (parseDigits y1 : Int) (parseDigits mo) hm1 (by omega)
  next hsm =>
    split at h
    next y1 y2 hsy =>
      simp only [Option.some.injEq, Prod.mk.injEq] at h
      obtain ⟨hbg, hen⟩ := h
      obtain ⟨c1, c2, c3, c4, hy1, hd4⟩ := searchYear_digits hsy
      have hlt : parseDigits y1 < 10000 := by
        rw [hy1]
        exact parseDigits4_lt hd4
      by_cases h9 : parseDigits y1 = 9999
      · right
        constructor
        · rw [← hbg, h9]
          norm_num
        · rw [← hen, h9]
          norm_num
      · left
        rw [← hbg, ← hen]
        have hmod : (parseDigits y1 + 1) % 10000 = parseDigits y1 + 1 :=
          Nat.mod_eq_of_lt (by omega)
        rw [hmod]
        push_cast
        exact jstMs_year_lt (parseDigits y1 : Int)
    · exact absurd h (by simp)

/-- C7 (witness): the amended invariant at the concrete path
`/2023/2023-07`, whose range satisfies `begin < end`. -/
theorem C7_witness :
    rangeFromPathStr "/2023/2023-07" = some (jstMs 2023 7, jstMs 2023 8) ∧
    (jstMs 2023 7 < jstMs 2023 8 ∨ (jstMs 2023 7 = jstMs 9999 1 ∧ jstMs 2023 8 = jstMs 0 1)) :=
  ⟨by decide,
    C7_theorem ("/2023/2023-07".data) (jstMs 2023 7) (jstMs 2023 8) (by decide)⟩

/-- C10 (counterexample): for the year-convention path `/9999/9999-z` the
returned range end is January 1 of year 0, not January 1 of `9999 + 1` as
the claim states: the end year is the last four decimal digits of
`year + 1`. -/
theorem C10_cx :
    rangeFromPathStr "/9999/9999-z" = some (jstMs 9999 1, jstMs 0 1) ∧
    jstMs 0 1 ≠ jstMs 10000 1 :=
  ⟨by decide, by decide⟩

/-- C10 (amended): for every path on which the month pattern matches
nowhere and the leftmost year-pattern match has equal year captures,
`resolve` returns the range from January 1 of `YYYY` to January 1 of the
last four decimal digits of `YYYY + 1` — i.e. `(YYYY + 1) % 10000` — for
any four-digit year whatsoever, with the year/month plausibility bounds
enforced only in the month branch.  (A month-pattern match anywhere in the
path preempts the year convention.) -/
theorem C10_theorem (p : List Char) (y1 : List Char)
    (hm : searchMonth p = none)
    (hy : searchYear p = some (y1, y1)) :
    rangeFromPath p
      = some (jstMs ((parseDigits y1 : Nat) : Int) 1,
              jstMs (((parseDigits y1 + 1) % 10000 : Nat) : Int) 1) := by
  simp [rangeFromPath, hm, hy]

/-- C10 (witness): the amended theorem at `/1999/1999-misc/a.jpg`, which
resolves to `[Jan 1 1999, Jan 1 2000)` — a year (1999) inside the
plausibility bounds; the counterexample covers a year outside them. -/
theorem C10_witness :
    searchMonth ("/1999/1999-misc/a.jpg".data) = none ∧
    searchYear ("/1999/1999-misc/a.jpg".data)
      = some (['1', '9', '9', '9'], ['1', '9', '9', '9']) ∧
    rangeFromPathStr "/1999/1999-misc/a.jpg"
      = some (jstMs ((parseDigits ['1', '9', '9', '9'] : Nat) : Int) 1,
              jstMs (((parseDigits ['1', '9', '9', '9'] + 1) % 10000 : Nat) : Int) 1) :=
  ⟨by decide, by decide,
    C10_theorem ("/1999/1999-misc/a.jpg".data) ['1', '9', '9', '9'] (by decide) (by decide)⟩

end FileDateUtil
